import Mathlib

/-!
Shallow embedding of the contact-list manager (src/main.py) and proofs of
its specified properties.  Contacts are dictionaries with four string
fields; the store is a Python list of such dictionaries.  User-visible
positions are 1-based and converted to 0-based indices by subtracting one.
-/

namespace ContactList

/-- A contact record: the dictionary built by `new_contact` with keys
"Name", "Phone Number", "Email", "Favorite (Yes/No)". -/
structure Contact where
  name : String
  phone_number : String
  email : String
  favorite : String
deriving DecidableEq, Repr

/-- ASCII model of Python `str.title()`: a cased (alphabetic) character
that follows a non-cased character is uppercased, a cased character that
follows a cased character is lowercased, other characters are copied and
reset the cased flag. -/
def pyTitleGo : List Char → Bool → List Char
  | [], _ => []
  | c :: cs, prevCased =>
    if c.isAlpha then
      (if prevCased then c.toLower else c.toUpper) :: pyTitleGo cs true
    else
      c :: pyTitleGo cs false

/-- Python `s.title()` on a string (ASCII model). -/
def pyTitle (s : String) : String :=
  (pyTitleGo s.toList false).asString

/-- Python `s.lower()` (ASCII model). -/
def pyLower (s : String) : String :=
  (s.toList.map Char.toLower).asString

/-- Python slice `s[:n]`. -/
def pySliceTo (s : String) (n : Nat) : String :=
  (s.toList.take n).asString

/-- Python slice `s[n:]`. -/
def pySliceFrom (s : String) (n : Nat) : String :=
  (s.toList.drop n).asString

/-- Python substring containment `needle in hay`. -/
def pyStrIn (needle hay : String) : Bool :=
  (List.range (hay.toList.length + 1)).any fun i =>
    needle.toList.isPrefixOf (hay.toList.drop i)

/-- `format_phone_number` (main.py:49-63): `prefix = raw_number[:2]`,
`number = raw_number[2:]`, result `f"({prefix}) {number}"`. -/
def format_phone_number (raw_number : String) : String :=
  "(" ++ pySliceTo raw_number 2 ++ ") " ++ pySliceFrom raw_number 2

/-- `new_contact` (main.py:15-46): formats the phone, builds the contact
dictionary with title-cased name and favorite and verbatim email, and
appends it to the list.  Returns the updated list (the Python function
mutates `contact_list` in place). -/
def new_contact (contact_list : List Contact) (contact_name : String)
    (contact_raw_phone : String) (contact_email : String)
    (contact_favorite : String) : List Contact :=
  let contact_phone := format_phone_number contact_raw_phone
  contact_list ++
    [{ name := pyTitle contact_name,
       phone_number := contact_phone,
       email := contact_email,
       favorite := pyTitle contact_favorite }]

/-- Character class `[a-zA-Z0-9._%+-]` (local part of the email regex). -/
def emailLocalChar (c : Char) : Bool :=
  c.isAlpha || c.isDigit || c = '.' || c = '_' || c = '%' || c = '+' || c = '-'

/-- Character class `[a-zA-Z0-9.-]` (domain part of the email regex). -/
def emailDomainChar (c : Char) : Bool :=
  c.isAlpha || c.isDigit || c = '.' || c = '-'

/-- The top-level label `[a-zA-Z]{2,7}` of the email regex. -/
def emailTldOK (t : List Char) : Bool :=
  2 ≤ t.length && t.length ≤ 7 && t.all Char.isAlpha

/-- Everything after the `@` in the email regex: some decomposition
`domain ++ "." ++ tld` with `domain` a nonempty `[a-zA-Z0-9.-]+` and
`tld` a 2-7 letter label. -/
def emailDomainTldOK (l : List Char) : Bool :=
  (List.range l.length).any fun i =>
    match l.drop i with
    | '.' :: t => decide (i ≠ 0) && (l.take i).all emailDomainChar && emailTldOK t
    | _ => false

/-- `is_valid_email` (main.py:85-100): full match of the string against
the regex `^[a-zA-Z0-9._%+-]+@[a-zA-Z0-9.-]+\.[a-zA-Z]{2,7}$`, encoded as
the existence of a decomposition `local ++ "@" ++ domain ++ "." ++ tld`
with each piece in its character class (neither side class contains `@`,
so the split at `@` is the only nondeterminism besides the final dot). -/
def is_valid_email (email : String) : Bool :=
  let l := email.toList
  (List.range l.length).any fun i =>
    match l.drop i with
    | '@' :: rest =>
        decide (i ≠ 0) && (l.take i).all emailLocalChar && emailDomainTldOK rest
    | _ => false

/-- `list_favorites` (main.py:132-165) filter: keeps the contacts where
`str(contact.get("Favorite (Yes/No)", "")).lower() in ("yes")`.  Note
`("yes")` is the string `"yes"`, not a one-element tuple, so the Python
`in` is substring containment in `"yes"`. -/
def list_favorites (contact_list : List Contact) : List Contact :=
  contact_list.filter fun contact => pyStrIn (pyLower contact.favorite) "yes"

instance : Inhabited Contact := ⟨⟨"", "", "", ""⟩⟩

/-- The field updates read by `edit_contact` (main.py:215-218), already
stripped; the empty string means the user pressed Enter to keep the old
value (Python truthiness of `if new_name:` etc.). -/
structure EditUpdates where
  new_name : String
  new_phone : String
  new_email : String
  new_favorite : String
deriving DecidableEq, Repr

/-- The four conditional field assignments of `edit_contact`
(main.py:220-227): a non-empty name/email/favorite is stored verbatim, a
non-empty phone is passed through `format_phone_number`. -/
def apply_edit (contact : Contact) (u : EditUpdates) : Contact :=
  let contact :=
    if u.new_name ≠ "" then { contact with name := u.new_name } else contact
  let contact :=
    if u.new_phone ≠ "" then
      { contact with phone_number := format_phone_number u.new_phone }
    else contact
  let contact :=
    if u.new_email ≠ "" then { contact with email := u.new_email } else contact
  if u.new_favorite ≠ "" then { contact with favorite := u.new_favorite }
  else contact

/-- `edit_contact` (main.py:168-231), one attempt at a chosen position:
`index = int(choice) - 1`; if `0 <= index < len(contact_list)` the
contact at `index` is updated in place by the four conditional
assignments and the attempt succeeds (`true`), otherwise the list is
untouched and the out-of-range position is reported (`false`, the
"Please enter a number between 1 and N" re-prompt). -/
def edit_contact (contact_list : List Contact) (choice : Nat)
    (u : EditUpdates) : List Contact × Bool :=
  if 0 ≤ (choice : Int) - 1 ∧
      (choice : Int) - 1 < (contact_list.length : Int) then
    (contact_list.set ((choice : Int) - 1).toNat
      (apply_edit (contact_list.getD ((choice : Int) - 1).toNat default) u),
     true)
  else
    (contact_list, false)

/-- `delete_contact` (main.py:234-265): `index = int(choice) - 1`; if
`0 <= index < len(contact_list)` the contact at `index` is popped and
returned (for the confirmation message), otherwise the list is unchanged
and no contact is returned ("Invalid contact number!"). -/
def delete_contact (contact_list : List Contact) (choice : Nat) :
    List Contact × Option Contact :=
  if 0 ≤ (choice : Int) - 1 ∧
      (choice : Int) - 1 < (contact_list.length : Int) then
    (contact_list.eraseIdx ((choice : Int) - 1).toNat,
     contact_list[((choice : Int) - 1).toNat]?)
  else
    (contact_list, none)

/-- Python whitespace characters recognized by `str.split()` (ASCII). -/
def pyIsSpace (c : Char) : Bool :=
  c = ' ' || c = '\t' || c = '\n' || c = '\r' || c = '\x0b' || c = '\x0c'

/-- Worker for Python `s.split()`: splits on runs of whitespace and
discards empty pieces; `acc` holds the current word reversed. -/
def pySplitWsGo : List Char → List Char → List String
  | [], acc => if acc.isEmpty then [] else [acc.reverse.asString]
  | c :: cs, acc =>
    if pyIsSpace c then
      if acc.isEmpty then pySplitWsGo cs []
      else acc.reverse.asString :: pySplitWsGo cs []
    else pySplitWsGo cs (c :: acc)

/-- Python `s.strip().split()` (main.py:292): splitting on whitespace
runs already discards leading and trailing whitespace, so the strip does
not change the resulting parts. -/
def pySplitWs (s : String) : List String :=
  pySplitWsGo s.toList []

/-- The add-flow name acceptance test (main.py:292-293):
`parts = contact_name.strip().split()` and
`len(parts) >= 2 and all(len(part) >= 2 for part in parts[:2])`. -/
def name_accepted (contact_name : String) : Bool :=
  let parts := pySplitWs contact_name
  2 ≤ parts.length && (parts.take 2).all fun part => 2 ≤ part.length

/-- The add-flow favorite step (main.py:331-336): the typed value is kept
when it is exactly 3 characters long, otherwise it is replaced by "No". -/
def add_flow_favorite (contact_favorite : String) : String :=
  if contact_favorite.length = 3 then contact_favorite else "No"

/-! ## Sample data for concrete instantiations -/

/-- A sample stored contact. -/
def sampleA : Contact := ⟨"Ana Bo", "(51) 123", "a@b.com", "Yes"⟩

/-- A second sample stored contact. -/
def sampleB : Contact := ⟨"Cad Do", "(54) 456", "c@d.com", "No"⟩

/-- A third sample stored contact. -/
def sampleC : Contact := ⟨"Eve Fo", "(55) 789", "e@f.com", "yEs"⟩

/-- A sample edit that changes only the phone. -/
def sampleU : EditUpdates := ⟨"", "5198", "", ""⟩

/-! ## Helper lemmas -/

/-- An index whose lookup succeeds is in bounds. -/
theorem lt_length_of_getElem?_eq_some {α : Type} {l : List α} {i : Nat}
    {c : α} (h : l[i]? = some c) : i < l.length :=
  (List.getElem?_eq_some.mp h).1

/-- Setting an index back to the element already there is the identity. -/
theorem set_getElem?_self {α : Type} (l : List α) (i : Nat) (c : α)
    (h : l[i]? = some c) : l.set i c = l := by
  apply List.ext_getElem?
  intro j
  rw [List.getElem?_set]
  split
  · next he =>
      subst he
      rw [if_pos (lt_length_of_getElem?_eq_some h)]
      exact h.symm
  · rfl

/-- `edit_contact` at an in-range position replaces the chosen contact by
its edited version and succeeds. -/
theorem edit_contact_eq (l : List Contact) (p : Nat) (u : EditUpdates)
    (c : Contact) (hp : 1 ≤ p) (hc : l[p - 1]? = some c) :
    edit_contact l p u = (l.set (p - 1) (apply_edit c u), true) := by
  have hlen : p - 1 < l.length := lt_length_of_getElem?_eq_some hc
  unfold edit_contact
  rw [if_pos (by constructor <;> omega)]
  rw [show ((p : Int) - 1).toNat = p - 1 by omega]
  rw [List.getD_eq_getElem?_getD, hc]
  rfl

/-- `edit_contact` at an out-of-range position fails and keeps the list. -/
theorem edit_contact_out (l : List Contact) (p : Nat) (u : EditUpdates)
    (hp : ¬ (1 ≤ p ∧ p ≤ l.length)) : edit_contact l p u = (l, false) := by
  unfold edit_contact
  rw [if_neg (by omega)]

/-- `delete_contact` at an in-range position removes the chosen contact
and returns it. -/
theorem delete_contact_eq (l : List Contact) (k : Nat) (h1 : 1 ≤ k)
    (h2 : k ≤ l.length) :
    delete_contact l k = (l.take (k - 1) ++ l.drop k, l[k - 1]?) := by
  unfold delete_contact
  rw [if_pos (by constructor <;> omega)]
  rw [show ((k : Int) - 1).toNat = k - 1 by omega]
  rw [List.eraseIdx_eq_take_drop_succ, Nat.sub_add_cancel h1]

/-- `delete_contact` at an out-of-range position keeps the list and
returns nothing. -/
theorem delete_contact_out (l : List Contact) (k : Nat)
    (hk : ¬ (1 ≤ k ∧ k ≤ l.length)) : delete_contact l k = (l, none) := by
  unfold delete_contact
  rw [if_neg (by omega)]

/-- Field-by-field description of `apply_edit`. -/
theorem apply_edit_fields (c : Contact) (u : EditUpdates) :
    apply_edit c u =
      ⟨if u.new_name = "" then c.name else u.new_name,
       if u.new_phone = "" then c.phone_number
       else format_phone_number u.new_phone,
       if u.new_email = "" then c.email else u.new_email,
       if u.new_favorite = "" then c.favorite else u.new_favorite⟩ := by
  cases c
  simp only [apply_edit]
  split_ifs <;> simp_all

/-! ## Claim theorems -/

/-- C1: every `add(name, rawPhone, email, favorite)` call grows the store
by exactly one record, the new record is the last element, and it carries
the title-cased name, the title-cased favorite flag, the phone formatted
by `format_phone_number`, and the email verbatim; in particular
`add("maria silva", "51999999999", "m@x.com", "yes")` stores name
`"Maria Silva"` and favorite `"Yes"`. -/
theorem spec_c1_add_appends (l : List Contact)
    (n p e f : String) :
    (new_contact l n p e f).length = l.length + 1 ∧
    (new_contact l n p e f).getLast? =
      some ⟨pyTitle n, format_phone_number p, e, pyTitle f⟩ ∧
    (new_contact l n p e f).take l.length = l ∧
    pyTitle "maria silva" = "Maria Silva" ∧
    pyTitle "yes" = "Yes" ∧
    format_phone_number "51999999999" = "(51) 999999999" := by
  refine ⟨by simp [new_contact], by simp [new_contact], ?_,
    by decide, by decide, by decide⟩
  show (l ++ [_]).take l.length = l
  rw [List.take_left]

/-- C2 (refuted, code bug): `list_favorites` keeps a contact whose
favorite field is `"E"`, which does not case-insensitively equal
`"yes"`.  The Python filter reads `... .lower() in ("yes")`, and
`("yes")` is the plain string `"yes"` rather than a one-element tuple,
so the test is substring containment in `"yes"` instead of the equality
announced by the function's own docstring. -/
theorem spec_c2_substring_check :
    list_favorites [⟨"Ana Bo", "(51) 9", "", "E"⟩] =
      [⟨"Ana Bo", "(51) 9", "", "E"⟩] ∧
    pyLower "E" ≠ pyLower "yes" ∧
    list_favorites [⟨"Ana Bo", "(51) 9", "", ""⟩] =
      [⟨"Ana Bo", "(51) 9", "", ""⟩] := by
  refine ⟨by decide, by decide, by decide⟩

/-- C6: `format_phone_number` always returns `"(XX) REST"` where `XX` is
the slice `s[:2]` (the first two characters when the input has at least
two, the whole input otherwise) and `REST` is the slice `s[2:]` (empty
for inputs shorter than two characters); it is total, the empty string
included. -/
theorem spec_c6_format_phone (s : String) :
    format_phone_number s = "(" ++ pySliceTo s 2 ++ ") " ++ pySliceFrom s 2 ∧
    (pySliceTo s 2).toList = s.toList.take 2 ∧
    (pySliceFrom s 2).toList = s.toList.drop 2 ∧
    (2 ≤ s.length → (pySliceTo s 2).length = 2 ∧
      (pySliceTo s 2).toList ++ (pySliceFrom s 2).toList = s.toList) ∧
    (s.length < 2 → pySliceTo s 2 = s ∧ pySliceFrom s 2 = "") ∧
    format_phone_number "" = "() " := by
  obtain ⟨data⟩ := s
  refine ⟨rfl, rfl, rfl, ?_, ?_, by decide⟩
  · intro h
    have h' : 2 ≤ data.length := h
    constructor
    · show (data.take 2).length = 2
      rw [List.length_take]
      omega
    · exact List.take_append_drop 2 data
  · intro h
    have h' : data.length < 2 := h
    constructor
    · show List.asString (data.take 2) = String.mk data
      rw [List.take_of_length_le (by omega)]
      rfl
    · show List.asString (data.drop 2) = ""
      rw [List.drop_eq_nil_of_le (by omega)]
      rfl

/-- Instantiates the two length regimes of C6: a normal phone number and
a one-character input. -/
theorem spec_c6_witness :
    2 ≤ ("51999999999" : String).length ∧
    (pySliceTo "51999999999" 2).length = 2 ∧
    ("5" : String).length < 2 ∧
    pySliceTo "5" 2 = "5" ∧ pySliceFrom "5" 2 = "" := by
  have h1 := (spec_c6_format_phone "51999999999").2.2.2.1 (by decide)
  have h2 := (spec_c6_format_phone "5").2.2.2.2.1 (by decide)
  exact ⟨by decide, h1.1, by decide, h2.1, h2.2⟩

/-- C7: `is_valid_email` accepts `"a@b.com"`, rejects `"a@b"`,
`"@b.com"` and `"a.com"`, and is a total boolean function of its
input. -/
theorem spec_c7_email_examples :
    is_valid_email "a@b.com" = true ∧
    is_valid_email "a@b" = false ∧
    is_valid_email "@b.com" = false ∧
    is_valid_email "a.com" = false ∧
    ∀ email : String, is_valid_email email = true ∨
      is_valid_email email = false := by
  refine ⟨by decide, by decide, by decide, by decide, ?_⟩
  intro email
  cases h : is_valid_email email
  · exact Or.inr rfl
  · exact Or.inl rfl

/-- C3: deleting position `k` of a store of length `N` with `1 ≤ k ≤ N`
shrinks the store to `N - 1` records, returns exactly the record formerly
at position `k`, keeps every record before position `k` in place, and
shifts every later record down by one position. -/
theorem spec_c3_delete_shifts (l : List Contact) (k : Nat)
    (h1 : 1 ≤ k) (h2 : k ≤ l.length) :
    (delete_contact l k).1.length = l.length - 1 ∧
    (delete_contact l k).2 = l[k - 1]? ∧
    (∀ j, j < k - 1 → (delete_contact l k).1[j]? = l[j]?) ∧
    (∀ j, k - 1 ≤ j → (delete_contact l k).1[j]? = l[j + 1]?) := by
  rw [delete_contact_eq l k h1 h2]
  refine ⟨?_, rfl, ?_, ?_⟩
  · rw [List.length_append, List.length_take, List.length_drop]
    omega
  · intro j hj
    rw [List.getElem?_append_left (by rw [List.length_take]; omega)]
    rw [List.getElem?_take]
    rw [if_pos hj]
  · intro j hj
    rw [List.getElem?_append_right (by rw [List.length_take]; omega)]
    rw [List.getElem?_drop, List.length_take]
    congr 1
    omega

/-- Instantiates C3: deleting position 2 of a three-contact store. -/
theorem spec_c3_witness :
    1 ≤ 2 ∧ 2 ≤ ([sampleA, sampleB, sampleC] : List Contact).length ∧
    (delete_contact [sampleA, sampleB, sampleC] 2).1.length = 2 ∧
    (delete_contact [sampleA, sampleB, sampleC] 2).2 = some sampleB ∧
    (delete_contact [sampleA, sampleB, sampleC] 2).1[1]? = some sampleC := by
  have h := spec_c3_delete_shifts [sampleA, sampleB, sampleC] 2
    (by decide) (by decide)
  refine ⟨by decide, by decide, h.1, ?_, ?_⟩
  · rw [h.2.1]
    decide
  · rw [h.2.2.2 1 (by omega)]
    decide

/-- C4: any position outside `1..N` — position `0` and position `N + 1`
included — makes `edit_contact` report the out-of-range position and
makes `delete_contact` return no record, and both leave the store
completely unmodified. -/
theorem spec_c4_out_of_range (l : List Contact) (u : EditUpdates)
    (p : Nat) (hp : ¬ (1 ≤ p ∧ p ≤ l.length)) :
    edit_contact l p u = (l, false) ∧ delete_contact l p = (l, none) :=
  ⟨edit_contact_out l p u hp, delete_contact_out l p hp⟩

/-- Instantiates C4 at position 0 and position `length + 1` of a
one-contact store. -/
theorem spec_c4_witness :
    ¬ (1 ≤ 0 ∧ 0 ≤ ([sampleA] : List Contact).length) ∧
    ¬ (1 ≤ 2 ∧ 2 ≤ ([sampleA] : List Contact).length) ∧
    edit_contact [sampleA] 0 sampleU = ([sampleA], false) ∧
    delete_contact [sampleA] 0 = ([sampleA], none) ∧
    edit_contact [sampleA] 2 sampleU = ([sampleA], false) ∧
    delete_contact [sampleA] 2 = ([sampleA], none) := by
  have h0 := spec_c4_out_of_range [sampleA] sampleU 0 (by decide)
  have h2 := spec_c4_out_of_range [sampleA] sampleU 2 (by decide)
  exact ⟨by decide, by decide, h0.1, h0.2, h2.1, h2.2⟩

/-- C5: an in-range edit keeps every field whose update is empty at its
prior value — in particular the all-empty edit leaves the store
unchanged — and a supplied phone is reformatted by
`format_phone_number` while supplied name, email and favorite are stored
verbatim. -/
theorem spec_c5_edit_updates (l : List Contact) (p : Nat)
    (u : EditUpdates) (c : Contact) (hp : 1 ≤ p)
    (hc : l[p - 1]? = some c) :
    (edit_contact l p ⟨"", "", "", ""⟩).1 = l ∧
    edit_contact l p u = (l.set (p - 1) (apply_edit c u), true) ∧
    apply_edit c ⟨"", "", "", ""⟩ = c ∧
    (apply_edit c u).name =
      (if u.new_name = "" then c.name else u.new_name) ∧
    (apply_edit c u).phone_number =
      (if u.new_phone = "" then c.phone_number
       else format_phone_number u.new_phone) ∧
    (apply_edit c u).email =
      (if u.new_email = "" then c.email else u.new_email) ∧
    (apply_edit c u).favorite =
      (if u.new_favorite = "" then c.favorite else u.new_favorite) := by
  have happly : apply_edit c ⟨"", "", "", ""⟩ = c := by
    cases c
    rfl
  refine ⟨?_, edit_contact_eq l p u c hp hc, happly,
    by rw [apply_edit_fields], by rw [apply_edit_fields],
    by rw [apply_edit_fields], by rw [apply_edit_fields]⟩
  rw [edit_contact_eq l p ⟨"", "", "", ""⟩ c hp hc]
  show l.set (p - 1) (apply_edit c ⟨"", "", "", ""⟩) = l
  rw [happly]
  exact set_getElem?_self l (p - 1) c hc

/-- Instantiates C5: editing position 1 of a one-contact store with the
all-empty update, and a phone-only update. -/
theorem spec_c5_witness :
    1 ≤ 1 ∧ ([sampleA] : List Contact)[1 - 1]? = some sampleA ∧
    (edit_contact [sampleA] 1 ⟨"", "", "", ""⟩).1 = [sampleA] ∧
    (apply_edit sampleA sampleU).phone_number = "(51) 98" ∧
    (apply_edit sampleA sampleU).name = "Ana Bo" := by
  have h := spec_c5_edit_updates [sampleA] 1 sampleU sampleA
    (by decide) (by decide)
  refine ⟨by decide, by decide, h.1, ?_, ?_⟩
  · rw [h.2.2.2.2.1]
    decide
  · rw [h.2.2.2.1]
    decide

/-- C10: an in-range edit keeps the store length and changes no record
other than the one at the selected position. -/
theorem spec_c10_edit_frame (l : List Contact) (p : Nat)
    (u : EditUpdates) (h1 : 1 ≤ p) (h2 : p ≤ l.length) :
    (edit_contact l p u).1.length = l.length ∧
    ∀ j, j ≠ p - 1 → (edit_contact l p u).1[j]? = l[j]? := by
  have hlt : p - 1 < l.length := by omega
  obtain ⟨c, hc⟩ : ∃ c, l[p - 1]? = some c :=
    ⟨l.get ⟨p - 1, hlt⟩, by rw [List.getElem?_eq_getElem hlt]; rfl⟩
  rw [edit_contact_eq l p u c h1 hc]
  refine ⟨by rw [List.length_set], ?_⟩
  intro j hj
  exact List.getElem?_set_ne (Ne.symm hj)

/-- Instantiates C10: editing position 1 of a two-contact store leaves
position 2 untouched. -/
theorem spec_c10_witness :
    1 ≤ 1 ∧ 1 ≤ ([sampleA, sampleB] : List Contact).length ∧
    (edit_contact [sampleA, sampleB] 1 sampleU).1.length = 2 ∧
    (edit_contact [sampleA, sampleB] 1 sampleU).1[1]? = some sampleB := by
  have h := spec_c10_edit_frame [sampleA, sampleB] 1 sampleU
    (by decide) (by decide)
  refine ⟨by decide, by decide, h.1, ?_⟩
  rw [h.2 1 (by decide)]
  decide

/-- C8 (refuted as stated): the add flow accepts the name `"Ab Cd E"`
although its third whitespace-separated part `"E"` has fewer than 2
characters — the code only length-checks the first two parts
(`parts[:2]`). -/
theorem spec_c8_counterexample :
    name_accepted "Ab Cd E" = true ∧
    "E" ∈ pySplitWs "Ab Cd E" ∧
    ¬ 2 ≤ ("E" : String).length := by
  refine ⟨by decide, by decide, by decide⟩

/-- C8 (amended): the add flow accepts a contact name if and only if,
after splitting on whitespace, it has at least two parts and each of the
first two parts has at least 2 characters; later parts are not
length-checked. -/
theorem spec_c8_amended (s : String) :
    name_accepted s = true ↔
      2 ≤ (pySplitWs s).length ∧
        ∀ part ∈ (pySplitWs s).take 2, 2 ≤ part.length := by
  simp [name_accepted, List.all_eq_true]

/-- Instantiates the amended C8 in both directions: `"Jo Ann"` is
accepted, `"Jo"` is not. -/
theorem spec_c8_witness :
    name_accepted "Jo Ann" = true ∧ ¬ name_accepted "Jo" = true := by
  constructor
  · exact (spec_c8_amended "Jo Ann").mpr (by decide)
  · intro h
    have := (spec_c8_amended "Jo").mp h
    exact absurd this.1 (by decide)

/-- C9 (refuted as stated): the favorite input `"abc"` is exactly 3
characters, so it is kept and stored title-cased as `"Abc"`, which is
neither `"Yes"` nor `"No"`; the stored favorite is therefore not
restricted to `"Yes"`/`"No"`. -/
theorem spec_c9_counterexample :
    add_flow_favorite "abc" = "abc" ∧
    (new_contact [] "ana bo" "519" "" (add_flow_favorite "abc")).getLast? =
      some ⟨"Ana Bo", "(51) 9", "", "Abc"⟩ ∧
    ("Abc" : String) ≠ "Yes" ∧ ("Abc" : String) ≠ "No" := by
  refine ⟨by decide, by decide, by decide, by decide⟩

/-- C9 (amended): the add-flow favorite defaults to `"No"` whenever the
input is not exactly 3 characters long; a 3-character input is kept
as typed, and `new_contact` stores its title-cased form — so the stored
favorite is `"Yes"` or `"No"` only when the kept input title-cases to
one of them. -/
theorem spec_c9_amended (inp : String) (l : List Contact)
    (n p e : String) :
    (inp.length ≠ 3 → add_flow_favorite inp = "No") ∧
    (inp.length = 3 → add_flow_favorite inp = inp) ∧
    (new_contact l n p e (add_flow_favorite inp)).getLast? =
      some ⟨pyTitle n, format_phone_number p, e,
        pyTitle (add_flow_favorite inp)⟩ ∧
    pyTitle "No" = "No" ∧ pyTitle "yes" = "Yes" := by
  refine ⟨?_, ?_, by simp [new_contact], by decide, by decide⟩
  · intro h
    simp [add_flow_favorite, h]
  · intro h
    simp [add_flow_favorite, h]

/-- Instantiates the amended C9: a 2-character input defaults to
`"No"`, a 3-character input is kept. -/
theorem spec_c9_witness :
    ("hi" : String).length ≠ 3 ∧ add_flow_favorite "hi" = "No" ∧
    ("yes" : String).length = 3 ∧ add_flow_favorite "yes" = "yes" := by
  refine ⟨by decide, (spec_c9_amended "hi" [] "" "" "").1 (by decide),
    by decide, (spec_c9_amended "yes" [] "" "" "").2.1 (by decide)⟩

end ContactList
